import Mathlib

/-!
# Verification of the ArtAdvisor curation pipeline and taste-profile engine

Shallow embedding of `src/artadvisor/main.py` and `src/artadvisor/curador.py`.

* The two SQLAlchemy tables (`obras`, `perfil_gosto`) are modelled as lists of
  records; the session's pending inserts and the unique constraint on
  `perfil_gosto.tag` are modelled explicitly (the session is created with
  `autoflush=False`, so rows added with `db.add` are invisible to later
  queries inside the same request, and a duplicate insert makes the final
  `db.commit()` fail, rolling the whole request back).
* External capabilities (OpenAI calls, the Art Institute of Chicago HTTP
  responses, the final commit's success) are inputs to the pipeline function:
  each run is a pure function of the database state and of what the external
  world answered.
-/

set_option autoImplicit false

namespace ArtAdvisor

/-- Row of the `obras` table (class `Obra` in `main.py`). -/
structure Obra where
  id : Nat
  titulo : String
  imagem_url : String
  tags_extraidas : String
  data_exibicao : Int
  curtiu : Bool
  deriving Repr, DecidableEq

/-- Row of the `perfil_gosto` table (class `PerfilGosto` in `main.py`).
The column `tag` carries a UNIQUE constraint. -/
structure PerfilGosto where
  tag : String
  peso : Nat
  deriving Repr, DecidableEq

/-- The two durable stores. -/
structure DB where
  obras : List Obra
  perfil : List PerfilGosto
  deriving Repr, DecidableEq

/-- Result of `POST /obra/{id}/like` (`dar_like` in `main.py`). -/
inductive LikeOutcome where
  /-- HTTP 200 with `LikeResponse(status="sucesso", curtiu=...)`. -/
  | ok (curtiu : Bool)
  /-- HTTP 404 `Obra não encontrada`; raised before any mutation. -/
  | notFound
  /-- `db.commit()` raised (UNIQUE constraint on `perfil_gosto.tag`);
  the session is closed without committing, so every change is lost. -/
  | integrityError
  deriving Repr, DecidableEq

/-- Python's `s.split(",")`, written over the string's character list
(Lean's own `String.splitOn` is byte-position based and does not reduce in
the kernel): split at every comma, never dropping a group, so `""` yields
`[""]` exactly as in Python. -/
def splitVirgula : List Char → List (List Char)
  | [] => [[]]
  | c :: rest =>
    match splitVirgula rest with
    | [] => [[]]
    | g :: gs => if c = ',' then [] :: g :: gs else (c :: g) :: gs

/-- Python's `str.strip()`: remove leading and trailing whitespace. -/
def stripChars (cs : List Char) : List Char :=
  ((cs.dropWhile Char.isWhitespace).reverse.dropWhile Char.isWhitespace).reverse

/-- `[t.strip().lower() for t in obra.tags_extraidas.split(",")]` in `dar_like`. -/
def normalizar_tags (s : String) : List String :=
  (splitVirgula s.data).map (fun cs => ⟨(stripChars cs).map Char.toLower⟩)

/-- `obra.curtiu = not obra.curtiu`: mutate the single row returned by
`.first()`, i.e. replace the first element whose `id` matches. -/
def setCurtiu (oid : Nat) (b : Bool) : List Obra → List Obra
  | [] => []
  | o :: rest =>
    if o.id = oid then { o with curtiu := b } :: rest
    else o :: setCurtiu oid b rest

/-- `perfil.peso += 1` on the row returned by `.first()`: bump the first
entry whose `tag` matches. -/
def bumpPeso (t : String) : List PerfilGosto → List PerfilGosto
  | [] => []
  | p :: rest =>
    if p.tag = t then { p with peso := p.peso + 1 } :: rest
    else p :: bumpPeso t rest

/-- The reinforcement `for` loop of `dar_like` (`main.py` lines 150–157).
State is (committed rows as the session sees them, tags pending insertion).
Because the session has `autoflush=False`, a row added with
`db.add(PerfilGosto(...))` is *not* returned by the `db.query(...).first()`
of a later iteration, hence the separate `pending` accumulator. -/
def reinforceLoop : List String → List PerfilGosto → List String →
    List PerfilGosto × List String
  | [], committed, pending => (committed, pending)
  | t :: rest, committed, pending =>
    if t = "" then reinforceLoop rest committed pending
    else if committed.any (fun p => p.tag = t) then
      reinforceLoop rest (bumpPeso t committed) pending
    else
      reinforceLoop rest committed (pending ++ [t])

/-- `POST /obra/{obra_id}/like` (`dar_like`, `main.py` lines 133–161).
On 404 or on a failed commit the returned state is the original one
(the session is closed without a successful commit). -/
def dar_like (obra_id : Nat) (db : DB) : LikeOutcome × DB :=
  match db.obras.find? (fun o => o.id = obra_id) with
  | none => (.notFound, db)
  | some obra =>
    let curtiu' := !obra.curtiu
    let obras' := setCurtiu obra_id curtiu' db.obras
    if curtiu' && obra.tags_extraidas != "" then
      let r := reinforceLoop (normalizar_tags obra.tags_extraidas) db.perfil []
      -- `db.commit()`: the UNIQUE constraint on `tag` accepts the pending
      -- inserts iff they are pairwise distinct and absent from the table.
      if r.2.Nodup ∧ ¬ r.2.any (fun t => r.1.any (fun p => p.tag = t)) then
        (.ok curtiu',
         { obras := obras',
           perfil := r.1 ++ r.2.map (fun t => { tag := t, peso := 1 }) })
      else (.integrityError, db)
    else (.ok curtiu', { obras := obras', perfil := db.perfil })

/-- Weight of tag `T` in the profile store (0 when no entry exists);
reads through the first matching row, like `.first()`. -/
def pesoOf (T : String) (perfil : List PerfilGosto) : Nat :=
  match perfil.find? (fun p => p.tag = T) with
  | some p => p.peso
  | none => 0

/-- `k` like events on artwork `obra_id`, each one undone again before the
next: the toggle sequence like, unlike, like, unlike, …  Each round contains
exactly one transition into `curtiu = true`. -/
def likeUnlikeRounds (obra_id : Nat) : Nat → DB → DB
  | 0, db => db
  | k + 1, db =>
    let db1 := (dar_like obra_id db).2
    let db2 := (dar_like obra_id db1).2
    likeUnlikeRounds obra_id k db2

/-- Number of occurrences of `T` in a list of tags. -/
def countStr (T : String) : List String → Nat
  | [] => 0
  | t :: rest => (if t = T then 1 else 0) + countStr T rest

/-- Weight of `T` as seen through a (committed, pending) reinforcement state:
pending rows each carry weight 1. Proof-side accounting device. -/
def wt (T : String) (cp : List PerfilGosto × List String) : Nat :=
  pesoOf T cp.1 + countStr T cp.2

/-! ## The curator robot (`curador.py`) -/

/-- The dictionary built for each usable search hit
(`curador.py` lines 104–111). -/
structure Candidate where
  titulo_original : String
  artista : String
  ano : Option Int
  departamento : String
  image_id : String
  tags_api : List String
  deriving Repr, DecidableEq

/-- One record of the Art Institute of Chicago search response
(`data` array); each field may be absent. -/
structure ArticItem where
  title : Option String
  artist_title : Option String
  date_end : Option Int
  department_title : Option String
  image_id : Option String
  style_titles : Option (List String)
  term_titles : Option (List String)
  classification_titles : Option (List String)
  deriving Repr, DecidableEq

/-- The HTTP response of `requests.post` to the artworks search endpoint. -/
structure ArticResp where
  status_code : Nat
  data : List ArticItem
  deriving Repr, DecidableEq

/-- `buscar_obras_contemporaneas` (`curador.py` lines 55–114) as a function
of the source's response: on a non-200 status it returns `[]`; otherwise it
keeps the hits that carry a usable `image_id` (`if not image_id: continue`
skips both a missing and an empty one). -/
def buscar_obras_contemporaneas (resp : ArticResp) : List Candidate :=
  if resp.status_code ≠ 200 then []
  else
    resp.data.filterMap fun item =>
      match item.image_id with
      | none => none
      | some image_id =>
        if image_id = "" then none
        else
          some { titulo_original := item.title.getD "Untitled"
                 artista := item.artist_title.getD "Unknown"
                 ano := item.date_end
                 departamento := item.department_title.getD ""
                 image_id := image_id
                 tags_api := ((item.style_titles.getD []) ++ (item.term_titles.getD [])
                   ++ (item.classification_titles.getD [])).take 5 }

/-- The dedup loop of `rodar_curadoria` (`curador.py` lines 217–222):
`vistas` is the set of already-seen `image_id`s. -/
def dedupGo : List Candidate → List String → List Candidate
  | [], _ => []
  | o :: rest, vistas =>
    if o.image_id ∈ vistas then dedupGo rest vistas
    else o :: dedupGo rest (o.image_id :: vistas)

/-- `# Combina e remove duplicatas por image_id` with an initially
empty `vistas`. -/
def removerDuplicatas (obras : List Candidate) : List Candidate :=
  dedupGo obras []

/-- Concatenation of the input lists in the order given (the code writes
`obras_gpt + obras_extra` for its two lists). -/
def concat_lists : List (List Candidate) → List Candidate
  | [] => []
  | l :: ls => l ++ concat_lists ls

/-- The deduplicating merge over any sequence of candidate lists: dedup of
their concatenation in the order given. For the two lists of
`rodar_curadoria` this is exactly lines 217–222. -/
def merge (lists : List (List Candidate)) : List Candidate :=
  removerDuplicatas (concat_lists lists)

/-- One entry of the GPT curation answer (`obras_traduzidas` element);
every field is read with `.get(...)` and may be absent. -/
structure TradObra where
  index : Option Int
  titulo : Option String
  artista : Option String
  tags : Option String
  deriving Repr, DecidableEq

/-- The parsed top-level curation answer: `resultado.get("obras", [])`
defaults a missing `obras` key to `[]`. -/
structure CuratorResp where
  obras : Option (List TradObra)
  deriving Repr, DecidableEq

/-- `traduzir_e_taguear` (`curador.py` lines 117–162) as a function of the
external call's outcome: a transport error or unparseable top-level payload
is an exception (`.error`); otherwise the entry list is returned as-is —
the code never truncates it. -/
def traduzir_e_taguear (obras : List Candidate) (resposta : Except Unit CuratorResp) :
    Except Unit (List TradObra) :=
  if obras.isEmpty then .ok []
  else
    match resposta with
    | .error e => .error e
    | .ok r => .ok (r.obras.getD [])

/-- Python list subscript `todas_obras[idx]` for a possibly negative index:
a negative index counts from the end; `none` is an `IndexError`. -/
def pyIndex (l : List Candidate) (idx : Int) : Option Candidate :=
  let j : Int := if idx < 0 then idx + l.length else idx
  if j < 0 then none else l.get? j.toNat

/-- The `Obra(...)` row constructed for one curation entry
(`curador.py` lines 239–247); `id` is assigned by the store at commit. -/
def montarObra (trad : TradObra) (orig : Candidate) (hoje : Int) : Obra :=
  { id := 0
    titulo := (trad.titulo.getD "Sem título") ++ " — " ++ (trad.artista.getD orig.artista)
    imagem_url := orig.image_id
    tags_extraidas := trad.tags.getD ""
    data_exibicao := hoje
    curtiu := false }

/-- The persisting loop of `rodar_curadoria` (lines 235–248):
`idx = obra_trad.get("index", 0)`; an entry is skipped only when
`idx < len(todas_obras)` fails; inside the guard, `todas_obras[idx]` may
still raise `IndexError` for `idx < -len(todas_obras)`, which aborts the
run (`.error`). -/
def persistSelections (todas : List Candidate) (hoje : Int) :
    List TradObra → Except Unit (List Obra)
  | [] => .ok []
  | trad :: rest =>
    let idx : Int := trad.index.getD 0
    if idx < (todas.length : Int) then
      match pyIndex todas idx with
      | none => .error ()
      | some orig =>
        (persistSelections todas hoje rest).map (fun l => montarObra trad orig hoje :: l)
    else persistSelections todas hoje rest

/-- Primary keys handed out by the store at commit time. -/
def assignIds (base : Nat) : List Obra → List Obra
  | [] => []
  | o :: rest => { o with id := base + 1 } :: assignIds (base + 1) rest

/-- How one pipeline run ends: `done` is a normal return of
`rodar_curadoria`, `failed` is the `except` branch (log, `db.rollback()`). -/
inductive RunStatus where
  | done
  | failed
  deriving Repr, DecidableEq

/-- Everything the external world answers during one run. Each field is the
outcome of one suspension point: the two OpenAI calls, the two search
requests, and the final `db.commit()`. -/
structure RunInputs where
  termoGpt : Except Unit String
  searchGpt : ArticResp
  searchExtra : ArticResp
  curator : Except Unit CuratorResp
  commitFails : Bool
  today : Int

/-- The combined, deduplicated candidate list of a run (`todas_obras`). -/
def candidatos_combinados (inp : RunInputs) : List Candidate :=
  removerDuplicatas
    (buscar_obras_contemporaneas inp.searchGpt ++ buscar_obras_contemporaneas inp.searchExtra)

/-- The entry list of the curation answer (empty when the call failed;
unused in that case). -/
def curadorEntries (inp : RunInputs) : List TradObra :=
  match inp.curator with
  | .ok r => r.obras.getD []
  | .error _ => []

/-- `ORDER BY peso DESC` (descending weight). -/
def peso_desc (a b : PerfilGosto) : Prop :=
  b.peso ≤ a.peso

instance : DecidableRel peso_desc :=
  fun a b => decidable_of_iff (b.peso ≤ a.peso) Iff.rfl

instance : IsTotal PerfilGosto peso_desc :=
  ⟨fun a b => Nat.le_total b.peso a.peso⟩

instance : IsTrans PerfilGosto peso_desc :=
  ⟨fun _ _ _ h1 h2 => Nat.le_trans h2 h1⟩

/-- `db.query(PerfilGosto).order_by(PerfilGosto.peso.desc())`, modelled as a
stable sort of the table by descending weight. -/
def order_by_peso_desc (perfil : List PerfilGosto) : List PerfilGosto :=
  perfil.insertionSort peso_desc

/-- `...order_by(peso.desc()).limit(n).all()` — the profile read of
`rodar_curadoria` (lines 175–180, with `n = 3`) and the `top_tags(n)`
contract of the spec. -/
def top_tags (n : Nat) (perfil : List PerfilGosto) : List PerfilGosto :=
  (order_by_peso_desc perfil).take n

/-- `rodar_curadoria` (`curador.py` lines 165–258) as a function of the
database state and of the external answers. Every exception path ends in
the `except` branch: rollback, so the returned state is the original one.
The early `return` on an empty candidate list is a normal exit. -/
def rodar_curadoria (inp : RunInputs) (db : DB) : RunStatus × DB :=
  let _gosto := top_tags 3 db.perfil
  match inp.termoGpt with
  | .error _ => (.failed, db)
  | .ok _termo =>
    let todas_obras := candidatos_combinados inp
    if todas_obras.isEmpty then (.done, db)
    else
      match traduzir_e_taguear todas_obras inp.curator with
      | .error _ => (.failed, db)
      | .ok obras_traduzidas =>
        match persistSelections todas_obras inp.today obras_traduzidas with
        | .error _ => (.failed, db)
        | .ok novas =>
          if inp.commitFails then (.failed, db)
          else (.done, { obras := db.obras ++ assignIds db.obras.length novas
                         perfil := db.perfil })

/-! ## Concrete instances used in counterexamples and witnesses -/

/-- Eleven distinct usable search hits. -/
def items11 : List ArticItem :=
  (List.range 11).map fun i =>
    { title := some "t", artist_title := some "a", date_end := none,
      department_title := none, image_id := some (toString i),
      style_titles := none, term_titles := none, classification_titles := none }

/-- The corresponding candidate list. -/
def cands11 : List Candidate :=
  (List.range 11).map fun i =>
    { titulo_original := "t", artista := "a", ano := none, departamento := "",
      image_id := toString i, tags_api := [] }

/-- Eleven curation entries, back-references 0..10: one more than the ten
the prompt asks for. -/
def ents11 : List TradObra :=
  (List.range 11).map fun i =>
    { index := some (i : Int), titulo := none, artista := none, tags := none }

/-- A run whose curator answers eleven entries over eleven candidates. -/
def inp11 : RunInputs :=
  { termoGpt := .ok "q", searchGpt := ⟨200, items11⟩, searchExtra := ⟨200, []⟩,
    curator := .ok ⟨some ents11⟩, commitFails := false, today := 5 }

/-- Two candidates with distinct metadata, for back-reference tests. -/
def candX : Candidate :=
  { titulo_original := "x", artista := "aX", ano := none, departamento := "",
    image_id := "iX", tags_api := [] }

/-- See `candX`. -/
def candY : Candidate :=
  { titulo_original := "y", artista := "aY", ano := none, departamento := "",
    image_id := "iY", tags_api := [] }

/-! ## Lemmas about the reinforcement loop -/

theorem countStr_append (T : String) :
    ∀ l₁ l₂ : List String, countStr T (l₁ ++ l₂) = countStr T l₁ + countStr T l₂ := by
  intro l₁
  induction l₁ with
  | nil => intro l₂; simp [countStr]
  | cons t rest ih =>
    intro l₂
    simp [countStr, ih]
    omega

theorem countStr_eq_zero_of_not_mem {T : String} :
    ∀ {l : List String}, T ∉ l → countStr T l = 0 := by
  intro l
  induction l with
  | nil => intro _; rfl
  | cons t rest ih =>
    intro h
    have ht : ¬ t = T := fun he => h (he ▸ List.mem_cons_self t rest)
    have hrest : T ∉ rest := fun hm => h (List.mem_cons_of_mem t hm)
    simp [countStr, ht, ih hrest]

theorem countStr_eq_one {T : String} :
    ∀ {l : List String}, l.Nodup → T ∈ l → countStr T l = 1 := by
  intro l
  induction l with
  | nil => intro _ h; simp at h
  | cons t rest ih =>
    intro hnd hmem
    obtain ⟨hnotin, hnd'⟩ := List.nodup_cons.1 hnd
    rcases List.mem_cons.1 hmem with he | hm
    · subst he
      simp [countStr, countStr_eq_zero_of_not_mem hnotin]
    · have ht : ¬ t = T := fun he => hnotin (he ▸ hm)
      simp [countStr, ht, ih hnd' hm]

theorem pesoOf_cons (T : String) (p : PerfilGosto) (rest : List PerfilGosto) :
    pesoOf T (p :: rest) = if p.tag = T then p.peso else pesoOf T rest := by
  unfold pesoOf
  by_cases h : p.tag = T
  · rw [List.find?_cons_of_pos _ (by simp [h]), if_pos h]
  · rw [List.find?_cons_of_neg _ (by simp [h]), if_neg h]

theorem any_bumpPeso (t T : String) :
    ∀ c : List PerfilGosto,
      (bumpPeso t c).any (fun p => p.tag = T) = c.any (fun p => p.tag = T) := by
  intro c
  induction c with
  | nil => rfl
  | cons p rest ih =>
    by_cases h : p.tag = t
    · simp [bumpPeso, h]
    · simp [bumpPeso, h, ih]

theorem pesoOf_bumpPeso_ne (t T : String) (hne : t ≠ T) :
    ∀ c : List PerfilGosto, pesoOf T (bumpPeso t c) = pesoOf T c := by
  intro c
  induction c with
  | nil => rfl
  | cons p rest ih =>
    by_cases h : p.tag = t
    · have hpT : ¬ p.tag = T := by rw [h]; exact hne
      simp [bumpPeso, h, pesoOf_cons, hpT, hne]
    · simp [bumpPeso, h, pesoOf_cons, ih]

theorem pesoOf_bumpPeso_self (T : String) :
    ∀ c : List PerfilGosto, c.any (fun p => p.tag = T) = true →
      pesoOf T (bumpPeso T c) = pesoOf T c + 1 := by
  intro c
  induction c with
  | nil => intro h; simp at h
  | cons p rest ih =>
    intro h
    by_cases hp : p.tag = T
    · simp [bumpPeso, hp, pesoOf_cons]
    · have h' : rest.any (fun p => p.tag = T) = true := by simpa [hp] using h
      simp [bumpPeso, hp, pesoOf_cons, ih h']

theorem pesoOf_eq_zero (T : String) :
    ∀ c : List PerfilGosto, c.any (fun p => p.tag = T) = false → pesoOf T c = 0 := by
  intro c
  induction c with
  | nil => intro _; rfl
  | cons p rest ih =>
    intro h
    have hp : ¬ p.tag = T := by intro hT; simp [hT] at h
    have h' : rest.any (fun p => p.tag = T) = false := by simpa [hp] using h
    simp [pesoOf_cons, hp, ih h']

theorem pesoOf_append (T : String) :
    ∀ l₁ l₂ : List PerfilGosto,
      pesoOf T (l₁ ++ l₂)
        = if l₁.any (fun p => p.tag = T) = true then pesoOf T l₁ else pesoOf T l₂ := by
  intro l₁
  induction l₁ with
  | nil => intro l₂; simp
  | cons p rest ih =>
    intro l₂
    by_cases hp : p.tag = T
    · simp [pesoOf_cons, hp]
    · simp [pesoOf_cons, hp, ih]

theorem pesoOf_map_new (T : String) :
    ∀ p' : List String,
      pesoOf T (p'.map (fun t => ({ tag := t, peso := 1 } : PerfilGosto)))
        = if T ∈ p' then 1 else 0 := by
  intro p'
  induction p' with
  | nil => rfl
  | cons t rest ih =>
    by_cases h : t = T
    · simp [pesoOf_cons, h]
    · simp [pesoOf_cons, h, ih, Ne.symm h]

theorem countStr_cons_self (T : String) (rest : List String) :
    countStr T (T :: rest) = 1 + countStr T rest := by
  simp [countStr]

theorem countStr_cons_ne {t T : String} (h : t ≠ T) (rest : List String) :
    countStr T (t :: rest) = countStr T rest := by
  simp [countStr, h]

theorem wt_reinforceLoop (T : String) (hT : T ≠ "") :
    ∀ (tags : List String) (c : List PerfilGosto) (p : List String),
      wt T (reinforceLoop tags c p) = wt T (c, p) + countStr T tags := by
  intro tags
  induction tags with
  | nil => intro c p; simp [reinforceLoop, countStr]
  | cons t rest ih =>
    intro c p
    rw [reinforceLoop]
    by_cases ht : t = ""
    · rw [if_pos ht, ih c p]
      have htT : t ≠ T := fun he => hT (he ▸ ht)
      rw [countStr_cons_ne htT]
    · rw [if_neg ht]
      cases hA : c.any (fun p => p.tag = t) with
      | true =>
        rw [if_pos rfl, ih (bumpPeso t c) p]
        by_cases htT : t = T
        · subst htT
          have hb := pesoOf_bumpPeso_self t c hA
          rw [countStr_cons_self]
          dsimp only [wt]
          omega
        · have hb := pesoOf_bumpPeso_ne t T htT c
          rw [countStr_cons_ne htT]
          dsimp only [wt]
          omega
      | false =>
        rw [if_neg (by simp), ih c (p ++ [t])]
        by_cases htT : t = T
        · subst htT
          rw [countStr_cons_self]
          dsimp only [wt]
          rw [countStr_append]
          dsimp only [countStr]
          rw [if_pos rfl]
          omega
        · rw [countStr_cons_ne htT]
          dsimp only [wt]
          rw [countStr_append]
          dsimp only [countStr]
          rw [if_neg htT]
          omega

theorem reinforce_pending_sublist :
    ∀ (tags : List String) (c : List PerfilGosto) (p : List String),
      (reinforceLoop tags c p).2.Sublist (p ++ tags) := by
  intro tags
  induction tags with
  | nil => intro c p; simp [reinforceLoop]
  | cons t rest ih =>
    intro c p
    rw [reinforceLoop]
    by_cases ht : t = ""
    · rw [if_pos ht]
      exact (ih c p).trans (List.Sublist.append_left (List.sublist_cons_self _ _) _)
    · rw [if_neg ht]
      cases hA : c.any (fun p => p.tag = t) with
      | true =>
        rw [if_pos rfl]
        exact (ih (bumpPeso t c) p).trans
          (List.Sublist.append_left (List.sublist_cons_self _ _) _)
      | false =>
        rw [if_neg (by simp)]
        have := ih c (p ++ [t])
        simpa [List.append_assoc] using this

theorem reinforce_pending_fresh :
    ∀ (tags : List String) (c : List PerfilGosto) (p : List String),
      (∀ s ∈ p, c.any (fun q => q.tag = s) = false) →
      ∀ s ∈ (reinforceLoop tags c p).2,
        (reinforceLoop tags c p).1.any (fun q => q.tag = s) = false := by
  intro tags
  induction tags with
  | nil => intro c p hp; simpa [reinforceLoop] using hp
  | cons t rest ih =>
    intro c p hp
    rw [reinforceLoop]
    by_cases ht : t = ""
    · rw [if_pos ht]; exact ih c p hp
    · rw [if_neg ht]
      cases hA : c.any (fun q => q.tag = t) with
      | true =>
        rw [if_pos rfl]
        refine ih (bumpPeso t c) p ?_
        intro s hs
        rw [any_bumpPeso]
        exact hp s hs
      | false =>
        rw [if_neg (by simp)]
        refine ih c (p ++ [t]) ?_
        intro s hs
        rcases List.mem_append.1 hs with h | h
        · exact hp s h
        · have hst : s = t := by simpa using h
          subst hst
          exact hA

/-! ## Lemmas about one like / unlike step -/

theorem dar_like_reinforce (oid : Nat) (db : DB) (obra : Obra)
    (hfind : db.obras.find? (fun o => o.id = oid) = some obra)
    (hcurt : obra.curtiu = false)
    (htags : obra.tags_extraidas ≠ "")
    (hnodup : (normalizar_tags obra.tags_extraidas).Nodup) :
    ∃ P : List PerfilGosto,
      dar_like oid db = (.ok true, { obras := setCurtiu oid true db.obras, perfil := P }) ∧
      ∀ T, T ≠ "" →
        pesoOf T P = pesoOf T db.perfil + countStr T (normalizar_tags obra.tags_extraidas) := by
  have hsub : (reinforceLoop (normalizar_tags obra.tags_extraidas) db.perfil []).2.Sublist
      (normalizar_tags obra.tags_extraidas) := by
    simpa using reinforce_pending_sublist (normalizar_tags obra.tags_extraidas) db.perfil []
  have hnd2 : (reinforceLoop (normalizar_tags obra.tags_extraidas) db.perfil []).2.Nodup :=
    hsub.nodup hnodup
  have hfresh : ∀ s ∈ (reinforceLoop (normalizar_tags obra.tags_extraidas) db.perfil []).2,
      ((reinforceLoop (normalizar_tags obra.tags_extraidas) db.perfil []).1.any
        (fun q => q.tag = s)) = false :=
    reinforce_pending_fresh (normalizar_tags obra.tags_extraidas) db.perfil [] (by simp)
  have hcommit : (reinforceLoop (normalizar_tags obra.tags_extraidas) db.perfil []).2.Nodup ∧
      ¬ (reinforceLoop (normalizar_tags obra.tags_extraidas) db.perfil []).2.any
          (fun t => (reinforceLoop (normalizar_tags obra.tags_extraidas) db.perfil []).1.any
            (fun p => p.tag = t)) := by
    refine ⟨hnd2, ?_⟩
    rw [List.any_eq_true]
    rintro ⟨t, ht, hAt⟩
    rw [hfresh t ht] at hAt
    exact Bool.false_ne_true hAt
  refine ⟨(reinforceLoop (normalizar_tags obra.tags_extraidas) db.perfil []).1
      ++ (reinforceLoop (normalizar_tags obra.tags_extraidas) db.perfil []).2.map
        (fun t => { tag := t, peso := 1 }), ?_, ?_⟩
  · simp only [dar_like, hfind]
    rw [hcurt]
    simp only [Bool.not_false, Bool.true_and]
    rw [if_pos (by simpa using htags), if_pos hcommit]
  · intro T hT
    have hwt := wt_reinforceLoop T hT (normalizar_tags obra.tags_extraidas) db.perfil []
    dsimp only [wt, countStr] at hwt
    rw [pesoOf_append]
    cases hA : (reinforceLoop (normalizar_tags obra.tags_extraidas) db.perfil []).1.any
        (fun q => q.tag = T) with
    | true =>
      rw [if_pos rfl]
      have hnotmem : T ∉ (reinforceLoop (normalizar_tags obra.tags_extraidas) db.perfil []).2 := by
        intro hmem
        rw [hfresh T hmem] at hA
        exact Bool.false_ne_true hA
      have h0 := countStr_eq_zero_of_not_mem hnotmem
      omega
    | false =>
      rw [if_neg (by simp), pesoOf_map_new]
      have h1 := pesoOf_eq_zero T _ hA
      by_cases hm : T ∈ (reinforceLoop (normalizar_tags obra.tags_extraidas) db.perfil []).2
      · rw [if_pos hm]
        have := countStr_eq_one hnd2 hm
        omega
      · rw [if_neg hm]
        have := countStr_eq_zero_of_not_mem hm
        omega

theorem dar_like_unlike (oid : Nat) (db : DB) (obra : Obra)
    (hfind : db.obras.find? (fun o => o.id = oid) = some obra)
    (hcurt : obra.curtiu = true) :
    dar_like oid db
      = (.ok false, { obras := setCurtiu oid false db.obras, perfil := db.perfil }) := by
  simp only [dar_like, hfind]
  rw [hcurt]
  simp

theorem find?_setCurtiu (oid : Nat) (b : Bool) :
    ∀ l : List Obra,
      (setCurtiu oid b l).find? (fun o => o.id = oid)
        = (l.find? (fun o => o.id = oid)).map (fun o => { o with curtiu := b }) := by
  intro l
  induction l with
  | nil => rfl
  | cons o rest ih =>
    by_cases h : o.id = oid
    · simp [setCurtiu, h, List.find?_cons_of_pos]
    · simp [setCurtiu, h, List.find?_cons_of_neg, ih]

theorem setCurtiu_restore (oid : Nat) (b : Bool) :
    ∀ (l : List Obra) (obra : Obra),
      l.find? (fun o => o.id = oid) = some obra → obra.curtiu = b →
      setCurtiu oid b (setCurtiu oid (!b) l) = l := by
  intro l
  induction l with
  | nil => intro obra h _; simp at h
  | cons o rest ih =>
    intro obra h hb
    by_cases hid : o.id = oid
    · rw [List.find?_cons_of_pos _ (by simp [hid])] at h
      have ho : o = obra := Option.some.inj h
      have hbo : o.curtiu = b := by rw [ho]; exact hb
      simp only [setCurtiu, if_pos hid]
      obtain ⟨i, t, im, tg, d, c⟩ := o
      simp only at hbo
      rw [hbo]
    · rw [List.find?_cons_of_neg _ (by simp [hid])] at h
      simp only [setCurtiu, if_neg hid]
      rw [ih obra h hb]

theorem likeUnlikeRounds_weight (oid : Nat) (obra : Obra)
    (htags : obra.tags_extraidas ≠ "")
    (hnodup : (normalizar_tags obra.tags_extraidas).Nodup)
    (hcurt : obra.curtiu = false) :
    ∀ (k : Nat) (db : DB), db.obras.find? (fun o => o.id = oid) = some obra →
      (likeUnlikeRounds oid k db).obras = db.obras ∧
      ∀ T, T ≠ "" →
        pesoOf T (likeUnlikeRounds oid k db).perfil
          = pesoOf T db.perfil + k * countStr T (normalizar_tags obra.tags_extraidas) := by
  intro k
  induction k with
  | zero =>
    intro db hfind
    exact ⟨rfl, fun T _ => by simp [likeUnlikeRounds]⟩
  | succ k ih =>
    intro db hfind
    obtain ⟨P, hlike, hP⟩ := dar_like_reinforce oid db obra hfind hcurt htags hnodup
    have hfind1 : (setCurtiu oid true db.obras).find? (fun o => o.id = oid)
        = some { obra with curtiu := true } := by
      rw [find?_setCurtiu, hfind]; rfl
    have hunlike := dar_like_unlike oid
      { obras := setCurtiu oid true db.obras, perfil := P } { obra with curtiu := true } hfind1 rfl
    have hobras2 : setCurtiu oid false (setCurtiu oid true db.obras) = db.obras := by
      have := setCurtiu_restore oid false db.obras obra hfind hcurt
      simpa using this
    have h2 : (dar_like oid ((dar_like oid db).2)).2 = { obras := db.obras, perfil := P } := by
      rw [hlike]
      show (dar_like oid { obras := setCurtiu oid true db.obras, perfil := P }).2 = _
      rw [hunlike]
      show ({ obras := setCurtiu oid false (setCurtiu oid true db.obras), perfil := P } : DB) = _
      rw [hobras2]
    have hstep : likeUnlikeRounds oid (k + 1) db
        = likeUnlikeRounds oid k { obras := db.obras, perfil := P } := by
      show likeUnlikeRounds oid k ((dar_like oid ((dar_like oid db).2)).2) = _
      rw [h2]
    obtain ⟨hobras, hpeso⟩ := ih { obras := db.obras, perfil := P } hfind
    constructor
    · rw [hstep]; exact hobras
    · intro T hT
      rw [hstep, hpeso T hT]
      show pesoOf T P + k * countStr T (normalizar_tags obra.tags_extraidas) = _
      rw [hP T hT]
      ring

/-! ## Claim C1 -/

/-- C1, counterexample to the claim as stated. The claim says each
non-empty normalized tag is reinforced exactly once per like event *even if
the tag appears more than once in the artwork's tag string*. In the code the
reinforcement loop runs once per occurrence: liking an artwork whose tag
string is `"a,a"` with a preexisting entry `("a", 5)` leaves weight `7`
(two increments), where the claim demands `6`. -/
theorem C1_counterexample :
    pesoOf "a" (dar_like 1
      { obras := [{ id := 1, titulo := "t", imagem_url := "i", tags_extraidas := "a,a",
                    data_exibicao := 0, curtiu := false }],
        perfil := [{ tag := "a", peso := 5 }] }).2.perfil = 7 := by decide

/-- C1, amended: each *occurrence* of a non-empty normalized tag is
reinforced once per like event. Hence, when the artwork's normalized tag
list is duplicate-free, each of its tags is reinforced exactly once per
like event: after `k` like events (each one later undone by an unlike,
which touches no weight), a tag `T` of the artwork with no preexisting
profile entry has weight exactly `k` — in particular the first
reinforcement creates the entry with weight `1` (`k = 1`). Reinforcing
with an empty tag set (`tags_extraidas = ""`) is a no-op on the profile. -/
theorem C1_reinforce_once_per_occurrence :
    (∀ (oid k : Nat) (db : DB) (obra : Obra) (T : String),
      db.obras.find? (fun o => o.id = oid) = some obra →
      obra.curtiu = false →
      obra.tags_extraidas ≠ "" →
      (normalizar_tags obra.tags_extraidas).Nodup →
      T ∈ normalizar_tags obra.tags_extraidas →
      T ≠ "" →
      db.perfil.find? (fun p => p.tag = T) = none →
      pesoOf T (likeUnlikeRounds oid k db).perfil = k)
    ∧ (∀ (oid : Nat) (db : DB) (obra : Obra),
      db.obras.find? (fun o => o.id = oid) = some obra →
      obra.tags_extraidas = "" →
      (dar_like oid db).2.perfil = db.perfil) := by
  constructor
  · intro oid k db obra T hfind hcurt htags hnodup hmem hT hnone
    obtain ⟨-, hpeso⟩ :=
      likeUnlikeRounds_weight oid obra htags hnodup hcurt k db hfind
    rw [hpeso T hT]
    have h0 : pesoOf T db.perfil = 0 := by unfold pesoOf; rw [hnone]
    rw [h0, countStr_eq_one hnodup hmem]
    ring
  · intro oid db obra hfind htags
    simp only [dar_like, hfind]
    rw [htags]
    simp

/-- Witness for `C1_reinforce_once_per_occurrence` at concrete inputs:
two like events on tags `"a, b"` give weight 2, and a like on an artwork
with an empty tag string leaves the profile untouched. -/
theorem C1_witness :
    pesoOf "a" (likeUnlikeRounds 1 2
      { obras := [{ id := 1, titulo := "t", imagem_url := "i", tags_extraidas := "a, b",
                    data_exibicao := 0, curtiu := false }], perfil := [] }).perfil = 2
    ∧ (dar_like 1
      { obras := [{ id := 1, titulo := "t", imagem_url := "i", tags_extraidas := "",
                    data_exibicao := 0, curtiu := false }],
        perfil := [{ tag := "x", peso := 3 }] }).2.perfil = [{ tag := "x", peso := 3 }] :=
  ⟨C1_reinforce_once_per_occurrence.1 1 2 _
      { id := 1, titulo := "t", imagem_url := "i", tags_extraidas := "a, b",
        data_exibicao := 0, curtiu := false } "a"
      (by decide) rfl (by decide) (by decide) (by decide) (by decide) rfl,
   C1_reinforce_once_per_occurrence.2 1 _
      { id := 1, titulo := "t", imagem_url := "i", tags_extraidas := "",
        data_exibicao := 0, curtiu := false } (by decide) rfl⟩

/-! ## Claim C4 -/

/-- C4, counterexample to the claim as stated. For the artwork whose tag
list is `"a,a"` (tag `"a"` twice) and a profile entry `("a", 5)`, the
sequence like → unlike → like raises the weight to `9`, i.e. by `4`,
where the claim demands an increment of exactly `2` for every artwork with
a non-empty tag list. -/
theorem C4_counterexample :
    pesoOf "a" (dar_like 1 (dar_like 1 (dar_like 1
      { obras := [{ id := 1, titulo := "t", imagem_url := "i", tags_extraidas := "a,a",
                    data_exibicao := 0, curtiu := false }],
        perfil := [{ tag := "a", peso := 5 }] }).2).2).2.perfil = 9 := by decide

/-- C4, amended with the duplicate-free proviso: for an artwork whose
normalized tag list has no duplicates, like → unlike → like yields outcomes
liked/unliked/liked, the unlike leaves the profile exactly unchanged (in
particular it never decrements any weight), and each non-empty tag of the
artwork ends exactly 2 above its initial weight (one increment per
transition into `curtiu = true`). -/
theorem C4_like_unlike_like_two_increments (oid : Nat) (db : DB) (obra : Obra)
    (hfind : db.obras.find? (fun o => o.id = oid) = some obra)
    (hcurt : obra.curtiu = false)
    (htags : obra.tags_extraidas ≠ "")
    (hnodup : (normalizar_tags obra.tags_extraidas).Nodup) :
    (dar_like oid db).1 = .ok true ∧
    (dar_like oid (dar_like oid db).2).1 = .ok false ∧
    (dar_like oid (dar_like oid db).2).2.perfil = (dar_like oid db).2.perfil ∧
    (dar_like oid (dar_like oid (dar_like oid db).2).2).1 = .ok true ∧
    ∀ T, T ∈ normalizar_tags obra.tags_extraidas → T ≠ "" →
      pesoOf T (dar_like oid (dar_like oid (dar_like oid db).2).2).2.perfil
        = pesoOf T db.perfil + 2 := by
  obtain ⟨P, hlike, hP⟩ := dar_like_reinforce oid db obra hfind hcurt htags hnodup
  have hfind1 : (setCurtiu oid true db.obras).find? (fun o => o.id = oid)
      = some { obra with curtiu := true } := by
    rw [find?_setCurtiu, hfind]; rfl
  have hunlike := dar_like_unlike oid
    { obras := setCurtiu oid true db.obras, perfil := P } { obra with curtiu := true } hfind1 rfl
  have hobras2 : setCurtiu oid false (setCurtiu oid true db.obras) = db.obras := by
    have := setCurtiu_restore oid false db.obras obra hfind hcurt
    simpa using this
  have h2 : (dar_like oid ((dar_like oid db).2)).2 = { obras := db.obras, perfil := P } := by
    rw [hlike]
    show (dar_like oid { obras := setCurtiu oid true db.obras, perfil := P }).2 = _
    rw [hunlike]
    show ({ obras := setCurtiu oid false (setCurtiu oid true db.obras), perfil := P } : DB) = _
    rw [hobras2]
  obtain ⟨P3, hlike3, hP3⟩ :=
    dar_like_reinforce oid { obras := db.obras, perfil := P } obra hfind hcurt htags hnodup
  refine ⟨by rw [hlike], ?_, ?_, ?_, ?_⟩
  · rw [hlike]
    show (dar_like oid { obras := setCurtiu oid true db.obras, perfil := P }).1 = _
    rw [hunlike]
  · rw [hlike] at h2 ⊢
    rw [h2]
  · rw [h2, hlike3]
  · intro T hmem hT
    rw [h2, hlike3]
    show pesoOf T P3 = _
    rw [hP3 T hT]
    show pesoOf T P + _ = _
    rw [hP T hT, countStr_eq_one hnodup hmem]

/-- Witness for `C4_like_unlike_like_two_increments` at a concrete input:
artwork 1 with tags `"a, b"`, initial profile `[("a", 5)]`. -/
theorem C4_witness :
    pesoOf "a" (dar_like 1 (dar_like 1 (dar_like 1
      { obras := [{ id := 1, titulo := "t", imagem_url := "i", tags_extraidas := "a, b",
                    data_exibicao := 0, curtiu := false }],
        perfil := [{ tag := "a", peso := 5 }] }).2).2).2.perfil
      = pesoOf "a" [{ tag := "a", peso := 5 }] + 2 :=
  (C4_like_unlike_like_two_increments 1 _
      { id := 1, titulo := "t", imagem_url := "i", tags_extraidas := "a, b",
        data_exibicao := 0, curtiu := false }
      (by decide) rfl (by decide) (by decide)).2.2.2.2 "a" (by decide) (by decide)

/-! ## Lemmas about the deduplicating merge -/

theorem dedupGo_length :
    ∀ (l : List Candidate) (vistas : List String),
      (dedupGo l vistas).length ≤ l.length := by
  intro l
  induction l with
  | nil => intro vistas; simp [dedupGo]
  | cons o rest ih =>
    intro vistas
    by_cases h : o.image_id ∈ vistas
    · simp only [dedupGo, if_pos h]
      exact Nat.le_succ_of_le (ih vistas)
    · simp only [dedupGo, if_neg h, List.length_cons]
      exact Nat.succ_le_succ (ih _)

theorem dedupGo_sublist :
    ∀ (l : List Candidate) (vistas : List String), (dedupGo l vistas).Sublist l := by
  intro l
  induction l with
  | nil => intro vistas; simp [dedupGo]
  | cons o rest ih =>
    intro vistas
    by_cases h : o.image_id ∈ vistas
    · simp only [dedupGo, if_pos h]
      exact (ih vistas).trans (List.sublist_cons_self _ _)
    · simp only [dedupGo, if_neg h]
      exact List.Sublist.cons₂ o (ih _)

theorem dedupGo_nodup_avoid :
    ∀ (l : List Candidate) (vistas : List String),
      ((dedupGo l vistas).map (fun c => c.image_id)).Nodup ∧
      ∀ c ∈ dedupGo l vistas, c.image_id ∉ vistas := by
  intro l
  induction l with
  | nil => intro vistas; simp [dedupGo]
  | cons o rest ih =>
    intro vistas
    by_cases h : o.image_id ∈ vistas
    · simpa only [dedupGo, if_pos h] using ih vistas
    · obtain ⟨hnd, havoid⟩ := ih (o.image_id :: vistas)
      simp only [dedupGo, if_neg h, List.map_cons, List.nodup_cons]
      refine ⟨⟨?_, hnd⟩, ?_⟩
      · intro hmem
        obtain ⟨c, hc, hceq⟩ := List.mem_map.1 hmem
        exact havoid c hc (hceq ▸ List.mem_cons_self _ _)
      · intro c hc
        rcases List.mem_cons.1 hc with he | hm
        · exact he ▸ h
        · intro hv
          exact havoid c hm (List.mem_cons_of_mem _ hv)

theorem dedupGo_first_wins :
    ∀ (pre : List Candidate) (vistas : List String) (c : Candidate) (post : List Candidate),
      c.image_id ∉ pre.map (fun x => x.image_id) →
      c.image_id ∉ vistas →
      c ∈ dedupGo (pre ++ c :: post) vistas := by
  intro pre
  induction pre with
  | nil =>
    intro vistas c post _ hv
    simp only [List.nil_append, dedupGo, if_neg hv]
    exact List.mem_cons_self _ _
  | cons p pre' ih =>
    intro vistas c post hpre hv
    have hne : c.image_id ≠ p.image_id := by
      intro he
      exact hpre (by simp [he])
    have hpre' : c.image_id ∉ pre'.map (fun x => x.image_id) := by
      intro hm
      exact hpre (by simp [hm])
    by_cases h : p.image_id ∈ vistas
    · simp only [List.cons_append, dedupGo, if_pos h]
      exact ih vistas c post hpre' hv
    · simp only [List.cons_append, dedupGo, if_neg h]
      refine List.mem_cons_of_mem _ (ih _ c post hpre' ?_)
      intro hm
      rcases List.mem_cons.1 hm with he | hm'
      · exact hne he
      · exact hv hm'

theorem concat_lists_length :
    ∀ lists : List (List Candidate),
      (concat_lists lists).length = (lists.map List.length).sum := by
  intro lists
  induction lists with
  | nil => rfl
  | cons l ls ih => simp [concat_lists, ih]

/-! ## Claim C2 -/

/-- C2: the deduplicating merge of any sequence of candidate lists (the
code concatenates its lists and filters by first-seen `image_id`, the
stable source identifier) yields: (1) a sequence no longer than the sum of
the input lengths, (2) with pairwise distinct `image_id`s, (3) that is a
subsequence of the concatenation of the inputs in the order given — i.e.
first-seen order — and (4) containing, for each first occurrence of an
`image_id` in the concatenation, that very element, with all its metadata
(title etc.); by (2) any later duplicate is not in the output. -/
theorem C2_merge_first_seen_unique (lists : List (List Candidate)) :
    (merge lists).length ≤ (lists.map List.length).sum ∧
    ((merge lists).map (fun c => c.image_id)).Nodup ∧
    (merge lists).Sublist (concat_lists lists) ∧
    ∀ (pre : List Candidate) (c : Candidate) (post : List Candidate),
      concat_lists lists = pre ++ c :: post →
      c.image_id ∉ pre.map (fun x => x.image_id) →
      c ∈ merge lists := by
  refine ⟨?_, ?_, ?_, ?_⟩
  · rw [← concat_lists_length]
    exact dedupGo_length _ _
  · exact (dedupGo_nodup_avoid _ _).1
  · exact dedupGo_sublist _ _
  · intro pre c post hsplit hfirst
    unfold merge removerDuplicatas
    rw [hsplit]
    exact dedupGo_first_wins pre [] c post hfirst (by simp)

/-- Witness for `C2_merge_first_seen_unique`: the candidate with
`image_id = "X1"` appears in both input lists with different titles; the
first-seen record (title `"first"`) is in the merge output. -/
theorem C2_witness :
    ({ titulo_original := "first", artista := "a", ano := none, departamento := "",
       image_id := "X1", tags_api := [] } : Candidate) ∈
      merge [[{ titulo_original := "first", artista := "a", ano := none, departamento := "",
                image_id := "X1", tags_api := [] }],
             [{ titulo_original := "second", artista := "b", ano := none, departamento := "",
                image_id := "X1", tags_api := [] }]] :=
  (C2_merge_first_seen_unique _).2.2.2 []
    { titulo_original := "first", artista := "a", ano := none, departamento := "",
      image_id := "X1", tags_api := [] }
    [{ titulo_original := "second", artista := "b", ano := none, departamento := "",
       image_id := "X1", tags_api := [] }] (by decide) (by decide)

/-! ## Lemmas about the orchestrator -/

theorem assignIds_length :
    ∀ (base : Nat) (l : List Obra), (assignIds base l).length = l.length := by
  intro base l
  induction l generalizing base with
  | nil => rfl
  | cons o rest ih => simp [assignIds, ih]

theorem persistSelections_length_le (todas : List Candidate) (hoje : Int) :
    ∀ (trads : List TradObra) (sels : List Obra),
      persistSelections todas hoje trads = .ok sels → sels.length ≤ trads.length := by
  intro trads
  induction trads with
  | nil =>
    intro sels h
    cases Except.ok.inj h
    exact Nat.le_refl 0
  | cons trad rest ih =>
    intro sels h
    rw [persistSelections] at h
    by_cases hidx : (trad.index.getD 0 : Int) < (todas.length : Int)
    · rw [if_pos hidx] at h
      cases hpy : pyIndex todas (trad.index.getD 0) with
      | none => rw [hpy] at h; cases h
      | some orig =>
        rw [hpy] at h
        cases hrest : persistSelections todas hoje rest with
        | error e => rw [hrest] at h; cases h
        | ok l =>
          rw [hrest] at h
          cases Except.ok.inj h
          simpa using Nat.succ_le_succ (ih l hrest)
    · rw [if_neg hidx] at h
      exact Nat.le_succ_of_le (ih sels h)

/-- Every run either leaves the database untouched (early exit or any
failure, via `db.rollback()`), or ends in `done` having appended exactly
the run's selections in a single commit: all or nothing. -/
theorem rodar_obras_cases (inp : RunInputs) (db : DB) :
    (rodar_curadoria inp db).2 = db ∨
    ∃ sels,
      persistSelections (candidatos_combinados inp) inp.today (curadorEntries inp) = .ok sels ∧
      rodar_curadoria inp db
        = (.done, { obras := db.obras ++ assignIds db.obras.length sels, perfil := db.perfil }) := by
  unfold rodar_curadoria
  cases htermo : inp.termoGpt with
  | error e => left; rfl
  | ok t =>
    by_cases hemp : (candidatos_combinados inp).isEmpty = true
    · rw [if_pos hemp]; left; rfl
    · rw [if_neg hemp]
      cases hcur : inp.curator with
      | error e =>
        rw [show traduzir_e_taguear (candidatos_combinados inp) (Except.error e)
            = Except.error e from by unfold traduzir_e_taguear; rw [if_neg hemp]]
        left; rfl
      | ok r =>
        rw [show traduzir_e_taguear (candidatos_combinados inp) (Except.ok r)
            = Except.ok (r.obras.getD []) from by unfold traduzir_e_taguear; rw [if_neg hemp]]
        have hce : curadorEntries inp = r.obras.getD [] := by
          unfold curadorEntries
          rw [hcur]
        rw [hce]
        dsimp only
        cases hpers : persistSelections (candidatos_combinados inp) inp.today
            (r.obras.getD []) with
        | error e => left; rfl
        | ok sels =>
          dsimp only
          by_cases hcf : inp.commitFails = true
          · rw [if_pos hcf]; left; rfl
          · rw [if_neg hcf]
            right
            exact ⟨sels, rfl, rfl⟩

/-! ## Claim C3 -/

/-- C3: a run in which the curation capability fails outright persists
nothing — the whole state (artwork store and profile) is exactly the
original one, and, whenever the curator was actually consulted (the query
synthesis succeeded and there were candidates), the run surfaces the
failure by ending in `failed`. In general, persistence is all-or-nothing:
either the run leaves the database untouched or it ends in `done` having
appended every selection of the run in one commit. -/
theorem C3_curation_failure_all_or_nothing (inp : RunInputs) (db : DB) :
    (∀ e, inp.curator = .error e → (rodar_curadoria inp db).2 = db) ∧
    (∀ e t, inp.curator = .error e → inp.termoGpt = .ok t →
      (candidatos_combinados inp).isEmpty = false →
      rodar_curadoria inp db = (.failed, db)) ∧
    ((rodar_curadoria inp db).2 = db ∨
      ∃ sels,
        persistSelections (candidatos_combinados inp) inp.today (curadorEntries inp)
          = .ok sels ∧
        rodar_curadoria inp db
          = (.done, { obras := db.obras ++ assignIds db.obras.length sels,
                      perfil := db.perfil })) := by
  refine ⟨?_, ?_, rodar_obras_cases inp db⟩
  · intro e he
    unfold rodar_curadoria
    cases htermo : inp.termoGpt with
    | error e' => rfl
    | ok t =>
      by_cases hemp : (candidatos_combinados inp).isEmpty = true
      · rw [if_pos hemp]
      · rw [if_neg hemp]
        have : traduzir_e_taguear (candidatos_combinados inp) inp.curator = .error e := by
          unfold traduzir_e_taguear
          rw [if_neg hemp, he]
        rw [this]
  · intro e t he htermo hemp
    unfold rodar_curadoria
    rw [htermo, if_neg (by simp [hemp])]
    have : traduzir_e_taguear (candidatos_combinados inp) inp.curator = .error e := by
      unfold traduzir_e_taguear
      rw [if_neg (by simp [hemp]), he]
    rw [this]

/-- Witness for `C3_curation_failure_all_or_nothing`: a run whose curator
call raises, over one usable candidate, fails and leaves the one-row
database exactly as it was. -/
theorem C3_witness :
    rodar_curadoria
        { termoGpt := .ok "q",
          searchGpt := ⟨200, [⟨some "t", some "a", none, none, some "img1", none, none, none⟩]⟩,
          searchExtra := ⟨200, []⟩,
          curator := .error (),
          commitFails := false, today := 3 }
        { obras := [], perfil := [{ tag := "x", peso := 1 }] }
      = (.failed, { obras := [], perfil := [{ tag := "x", peso := 1 }] }) :=
  (C3_curation_failure_all_or_nothing _ _).2.1 () "q" rfl rfl (by decide)

/-! ## Claim C5 -/

/-- C5: a run in which every source search yields zero usable candidates
(and the query synthesis itself succeeded) ends in `done` — not `failed` —
with the database state, hence both the artwork store and the taste
profile, exactly unchanged. -/
theorem C5_empty_market_done (inp : RunInputs) (db : DB) (t : String)
    (htermo : inp.termoGpt = .ok t)
    (hgpt : buscar_obras_contemporaneas inp.searchGpt = [])
    (hextra : buscar_obras_contemporaneas inp.searchExtra = []) :
    rodar_curadoria inp db = (.done, db) := by
  have hc : candidatos_combinados inp = [] := by
    unfold candidatos_combinados
    rw [hgpt, hextra]
    rfl
  unfold rodar_curadoria
  rw [htermo, hc]
  rfl

/-- Witness for `C5_empty_market_done`: one source answers 500, the other
200 with an imageless hit; the run ends `done` and unchanged. -/
theorem C5_witness :
    rodar_curadoria
        { termoGpt := .ok "q",
          searchGpt := ⟨500, [⟨some "t", some "a", none, none, some "img1", none, none, none⟩]⟩,
          searchExtra := ⟨200, [⟨some "t", some "a", none, none, none, none, none, none⟩]⟩,
          curator := .ok ⟨some [⟨some 0, none, none, none⟩]⟩,
          commitFails := false, today := 3 }
        { obras := [{ id := 1, titulo := "t", imagem_url := "i", tags_extraidas := "a",
                      data_exibicao := 0, curtiu := true }],
          perfil := [{ tag := "x", peso := 9 }] }
      = (.done,
         { obras := [{ id := 1, titulo := "t", imagem_url := "i", tags_extraidas := "a",
                       data_exibicao := 0, curtiu := true }],
           perfil := [{ tag := "x", peso := 9 }] }) :=
  C5_empty_market_done _ _ "q" rfl (by decide) (by decide)

/-! ## Claim C9 -/

/-- C9: the candidate source adapter (1) answers `[]` on any non-200
response instead of raising, (2) only emits candidates with a non-empty
`image_id` (results without a usable image reference are filtered out),
and (3)/(4) consequently a failed source changes nothing about the run:
the pipeline behaves exactly as if that source had answered 200 with zero
hits — a single source's failure never aborts the run by itself. -/
theorem C9_source_failure_safe :
    (∀ resp : ArticResp, resp.status_code ≠ 200 → buscar_obras_contemporaneas resp = []) ∧
    (∀ (resp : ArticResp) (c : Candidate),
      c ∈ buscar_obras_contemporaneas resp → c.image_id ≠ "") ∧
    (∀ (inp : RunInputs) (db : DB), inp.searchGpt.status_code ≠ 200 →
      rodar_curadoria inp db
        = rodar_curadoria { inp with searchGpt := { status_code := 200, data := [] } } db) ∧
    (∀ (inp : RunInputs) (db : DB), inp.searchExtra.status_code ≠ 200 →
      rodar_curadoria inp db
        = rodar_curadoria { inp with searchExtra := { status_code := 200, data := [] } } db) := by
  have h200 : ∀ resp : ArticResp, resp.status_code ≠ 200 →
      buscar_obras_contemporaneas resp = [] := by
    intro resp h
    unfold buscar_obras_contemporaneas
    rw [if_pos h]
  refine ⟨h200, ?_, ?_, ?_⟩
  · intro resp c hmem
    unfold buscar_obras_contemporaneas at hmem
    by_cases hs : resp.status_code ≠ 200
    · rw [if_pos hs] at hmem
      simp at hmem
    · rw [if_neg hs] at hmem
      obtain ⟨item, -, hf⟩ := List.mem_filterMap.1 hmem
      cases himg : item.image_id with
      | none => simp only [himg] at hf; cases hf
      | some img =>
        simp only [himg] at hf
        by_cases h0 : img = ""
        · rw [if_pos h0] at hf; cases hf
        · rw [if_neg h0] at hf
          have hc := Option.some.inj hf
          rw [← hc]
          exact h0
  · intro inp db h
    have hc : candidatos_combinados inp
        = candidatos_combinados { inp with searchGpt := { status_code := 200, data := [] } } := by
      unfold candidatos_combinados
      rw [h200 inp.searchGpt h]
      rfl
    unfold rodar_curadoria
    dsimp only
    rw [hc]
  · intro inp db h
    have hc : candidatos_combinados inp
        = candidatos_combinados { inp with searchExtra := { status_code := 200, data := [] } } := by
      unfold candidatos_combinados
      rw [h200 inp.searchExtra h]
      rfl
    unfold rodar_curadoria
    dsimp only
    rw [hc]

/-- Witness for `C9_source_failure_safe` at concrete inputs: a 500
response (with a hit that would otherwise qualify) yields no candidates; a
candidate produced from a 200 response has a non-empty image reference;
and a run whose first (resp. second) source failed equals the run where
that source returned zero hits. -/
theorem C9_witness :
    buscar_obras_contemporaneas
      ⟨500, [⟨some "t", some "a", none, none, some "img7", none, none, none⟩]⟩ = [] ∧
    ({ titulo_original := "t", artista := "a", ano := none, departamento := "",
       image_id := "img7", tags_api := [] } : Candidate).image_id ≠ "" ∧
    rodar_curadoria
        { termoGpt := .ok "q",
          searchGpt := ⟨500, [⟨some "t", some "a", none, none, some "img7", none, none, none⟩]⟩,
          searchExtra := ⟨200, [⟨some "t", some "a", none, none, some "img8", none, none, none⟩]⟩,
          curator := .ok ⟨some [⟨some 0, some "T", none, some "x"⟩]⟩,
          commitFails := false, today := 1 } ⟨[], []⟩
      = rodar_curadoria
        { termoGpt := .ok "q",
          searchGpt := ⟨200, []⟩,
          searchExtra := ⟨200, [⟨some "t", some "a", none, none, some "img8", none, none, none⟩]⟩,
          curator := .ok ⟨some [⟨some 0, some "T", none, some "x"⟩]⟩,
          commitFails := false, today := 1 } ⟨[], []⟩ :=
  ⟨C9_source_failure_safe.1 _ (by decide),
   C9_source_failure_safe.2.1 ⟨200, [⟨some "t", some "a", none, none, some "img7", none, none, none⟩]⟩
     _ (by decide),
   C9_source_failure_safe.2.2.1 _ _ (by decide)⟩

/-! ## Claim C6 -/

/-- C6, counterexample to the claim as stated. The cap of 10 lives only in
the prompt text; the code never truncates. A curator response with eleven
entries (valid back-references 0..10 over eleven candidates) passes through
`traduzir_e_taguear` in full, and the run commits eleven artworks to an
initially empty store. -/
theorem C6_counterexample :
    traduzir_e_taguear cands11 (.ok ⟨some ents11⟩) = .ok ents11 ∧
    ents11.length = 11 ∧
    (rodar_curadoria inp11 ⟨[], []⟩).2.obras.length = 11 := by
  refine ⟨?_, ?_, ?_⟩ <;> rfl

/-- C6, amended: the code enforces no cap itself; the number of persisted
selections is bounded by the number of entries in the curator's response.
Hence, whenever the curator complies with the prompt's request for at most
`max_out = 10` entries, the run commits at most 10 artworks. -/
theorem C6_cap_only_if_curator_complies (inp : RunInputs) (db : DB)
    (hbound : (curadorEntries inp).length ≤ 10) :
    (rodar_curadoria inp db).2.obras.length ≤ db.obras.length + 10 := by
  rcases rodar_obras_cases inp db with h | ⟨sels, hpers, hrun⟩
  · rw [h]
    omega
  · rw [hrun]
    dsimp only
    rw [List.length_append, assignIds_length]
    have := persistSelections_length_le _ _ _ _ hpers
    omega

/-- Witness for `C6_cap_only_if_curator_complies`: a compliant one-entry
response over one candidate commits at most ten artworks. -/
theorem C6_witness :
    (rodar_curadoria
        { termoGpt := .ok "q",
          searchGpt := ⟨200, [⟨some "t", some "a", none, none, some "img1", none, none, none⟩]⟩,
          searchExtra := ⟨200, []⟩,
          curator := .ok ⟨some [⟨some 0, some "T", none, some "x"⟩]⟩,
          commitFails := false, today := 1 } ⟨[], []⟩).2.obras.length ≤ ([] : List Obra).length + 10 :=
  C6_cap_only_if_curator_complies _ _ (by decide)

/-! ## Claim C7 -/

theorem pyIndex_none_of_far_negative (l : List Candidate) (idx : Int)
    (h : idx + (l.length : Int) < 0) :
    pyIndex l idx = none := by
  unfold pyIndex
  dsimp only
  have hneg : idx < 0 := by omega
  rw [if_pos hneg, if_pos h]

theorem pyIndex_some_of_in_range (l : List Candidate) (idx : Int)
    (h0 : 0 ≤ idx + (l.length : Int)) (hlt : idx < (l.length : Int)) :
    ∃ orig, pyIndex l idx = some orig := by
  unfold pyIndex
  dsimp only
  by_cases hneg : idx < 0
  · rw [if_pos hneg, if_neg (by omega)]
    cases hg : l.get? (idx + (l.length : Int)).toNat with
    | none =>
      rw [List.get?_eq_none] at hg
      omega
    | some c => exact ⟨c, rfl⟩
  · rw [if_neg hneg, if_neg (by omega)]
    cases hg : l.get? idx.toNat with
    | none =>
      rw [List.get?_eq_none] at hg
      omega
    | some c => exact ⟨c, rfl⟩

/-- C7, counterexample to the claim as stated. An unresolvable or missing
back-reference is *not* dropped: over candidates `[candX, candY]`, the
entry with `index = -1` is persisted (Python-style, it resolves to the
*last* candidate `candY`), and an entry with no index at all defaults to
`0` and is persisted against `candX`. -/
theorem C7_counterexample :
    persistSelections [candX, candY] 0
        [{ index := some (-1), titulo := none, artista := none, tags := none }]
      = .ok [{ id := 0, titulo := "Sem título — aY", imagem_url := "iY",
               tags_extraidas := "", data_exibicao := 0, curtiu := false }] ∧
    persistSelections [candX, candY] 0
        [{ index := none, titulo := none, artista := none, tags := none }]
      = .ok [{ id := 0, titulo := "Sem título — aX", imagem_url := "iX",
               tags_extraidas := "", data_exibicao := 0, curtiu := false }] :=
  ⟨rfl, rfl⟩

/-- C7, amended: only an entry whose back-reference `idx` (defaulted to `0`
when missing) satisfies `idx ≥ len(todas_obras)` is dropped. An entry with
`-len ≤ idx < len` is persisted, mapped to the candidate at the (possibly
negative, Python-style) position `idx`; an entry with `idx < -len` is not
dropped either — it raises `IndexError` and aborts the whole run. -/
theorem C7_backref_partial_validation (todas : List Candidate) (trad : TradObra)
    (rest : List TradObra) (hoje : Int) :
    ((todas.length : Int) ≤ trad.index.getD 0 →
      persistSelections todas hoje (trad :: rest) = persistSelections todas hoje rest) ∧
    (trad.index.getD 0 + (todas.length : Int) < 0 →
      persistSelections todas hoje (trad :: rest) = .error ()) ∧
    (0 ≤ trad.index.getD 0 + (todas.length : Int) →
      trad.index.getD 0 < (todas.length : Int) →
      ∃ orig, pyIndex todas (trad.index.getD 0) = some orig ∧
        persistSelections todas hoje (trad :: rest)
          = (persistSelections todas hoje rest).map
              (fun l => montarObra trad orig hoje :: l)) := by
  refine ⟨?_, ?_, ?_⟩
  · intro h
    rw [persistSelections, if_neg (by omega)]
  · intro h
    rw [persistSelections, if_pos (by omega),
      pyIndex_none_of_far_negative todas (trad.index.getD 0) h]
  · intro h0 hlt
    obtain ⟨orig, horig⟩ := pyIndex_some_of_in_range todas (trad.index.getD 0) h0 hlt
    refine ⟨orig, horig, ?_⟩
    rw [persistSelections, if_pos hlt, horig]

/-- Witness for `C7_backref_partial_validation` at concrete inputs: over
`[candX, candY]`, the entry with index 7 is dropped and the entry with
index −5 aborts the persisting step. -/
theorem C7_witness :
    persistSelections [candX, candY] 0
        [{ index := some 7, titulo := none, artista := none, tags := none }] = .ok [] ∧
    persistSelections [candX, candY] 0
        [{ index := some (-5), titulo := none, artista := none, tags := none }] = .error () :=
  ⟨(C7_backref_partial_validation [candX, candY]
      { index := some 7, titulo := none, artista := none, tags := none } [] 0).1 (by decide),
   (C7_backref_partial_validation [candX, candY]
      { index := some (-5), titulo := none, artista := none, tags := none } [] 0).2.1 (by decide)⟩

/-! ## Claim C8 -/

/-- C8: `top_tags n` (the `order_by(peso.desc()).limit(n)` read) returns at
most `n` entries, sorted by weight descending, drawn from the profile table
(the sorted sequence is a permutation of it). The model is a pure, stable
sort of the table, so the tie-break is deterministic: repeated calls on
unchanged data are literally the same value. -/
theorem C8_top_tags_sorted_bounded (n : Nat) (perfil : List PerfilGosto) :
    (top_tags n perfil).length ≤ n ∧
    (top_tags n perfil).Sorted peso_desc ∧
    (order_by_peso_desc perfil).Perm perfil := by
  refine ⟨?_, ?_, ?_⟩
  · rw [top_tags, List.length_take]
    exact Nat.min_le_left _ _
  · exact List.Pairwise.sublist (List.take_sublist _ _)
      (List.sorted_insertionSort peso_desc perfil)
  · exact List.perm_insertionSort peso_desc perfil

/-! ## Claim C10 -/

/-- C10: a like request whose artwork id matches no stored artwork answers
HTTP 404 and leaves the whole database state (both the `obras` store and
the taste profile) unchanged: no toggle, no reinforcement. -/
theorem C10_like_not_found (oid : Nat) (db : DB)
    (hnone : db.obras.find? (fun o => o.id = oid) = none) :
    dar_like oid db = (.notFound, db) := by
  simp only [dar_like, hnone]

/-- Witness for `C10_like_not_found`: liking artwork 7 in a store that
only holds artwork 1. -/
theorem C10_witness :
    dar_like 7
      { obras := [{ id := 1, titulo := "t", imagem_url := "i", tags_extraidas := "a",
                    data_exibicao := 0, curtiu := false }],
        perfil := [{ tag := "a", peso := 2 }] }
      = (.notFound,
         { obras := [{ id := 1, titulo := "t", imagem_url := "i", tags_extraidas := "a",
                       data_exibicao := 0, curtiu := false }],
           perfil := [{ tag := "a", peso := 2 }] }) :=
  C10_like_not_found 7 _ (by decide)

end ArtAdvisor
